import Mathlib

/-!
Verification of the genrev two-agent educational-content pipeline
(`src/agent_system.py`) against its natural-language specification.

The pipeline is shallowly embedded:
* JSON values decoded from the generation capability are an inductive `Json`
  (numbers restricted to integers; no claim depends on floating-point
  payloads).
* the ChatGroq text-generation capability together with the JSON decoding of
  its raw text response is an external oracle, indexed by the number of
  capability calls already made in the run so that distinct calls may answer
  differently;
* prompt construction, the orchestration in `AgentPipeline.run`, the branch on
  the review status, and the assembled result record are translated directly
  from the source.
-/

/-- A JSON value, as produced by decoding the capability's text response.
Numeric payloads are modelled as integers; object fields are kept in insertion
order with distinct keys, as `json.loads` yields for ordinary objects. -/
inductive Json where
  | null : Json
  | bool (b : Bool) : Json
  | num (n : Int) : Json
  | str (s : String) : Json
  | arr (xs : List Json) : Json
  | obj (fields : List (String × Json)) : Json

/-- Python truthiness (`if feedback:`) of a value decoded from JSON:
`None`, `False`, `0`, `""`, `[]` and the empty dict are falsy. -/
def Json.truthy : Json → Bool
  | .null => false
  | .bool b => b
  | .num n => n != 0
  | .str s => !s.isEmpty
  | .arr xs => !xs.isEmpty
  | .obj fs => !fs.isEmpty

/-- Python `==` comparison of a decoded JSON value against a string literal
(`review["status"] == "fail"`): only the identical string compares equal. -/
def Json.eqStr (j : Json) (s : String) : Bool :=
  match j with
  | .str t => t == s
  | _ => false

/-- Exceptions raised by the roles or inside `AgentPipeline.run`. -/
inductive CauseError where
  | valueError (msg : String)
  | llmError (msg : String)
  | outputParserException (msg : String)
  | keyError (key : String)
  | typeError (msg : String)

/-- Lookup of a key in a decoded JSON object's field list. -/
def jsonLookup (fs : List (String × Json)) (k : String) : Option Json :=
  match fs with
  | [] => none
  | (k2, v) :: rest => if k2 = k then some v else jsonLookup rest k

/-- Python subscript `j[key]` on a value decoded from JSON: a dict access that
raises `KeyError` on a missing key and `TypeError` on non-dict values. -/
def pySubscript (j : Json) (key : String) : Except CauseError Json :=
  match j with
  | .obj fs =>
      match jsonLookup fs key with
      | some v => Except.ok v
      | none => Except.error (CauseError.keyError key)
  | .str _ => Except.error (CauseError.typeError "string indices must be integers")
  | .arr _ => Except.error (CauseError.typeError "list indices must be integers, not str")
  | _ => Except.error (CauseError.typeError "object is not subscriptable")

/-- Python `repr` of a value decoded from JSON, used by `str` on containers.
String escaping and quote selection inside `repr` are simplified to plain
single quotes; no claim inspects the `repr` of container feedback items. -/
def pyRepr (j : Json) : String :=
  match j with
  | .str s => "\x27" ++ s ++ "\x27"
  | .null => "None"
  | .bool true => "True"
  | .bool false => "False"
  | .num n => toString n
  | .arr xs => "[" ++ String.intercalate ", " (xs.attach.map (fun x => pyRepr x.1)) ++ "]"
  | .obj fs =>
      "\x7b" ++
        String.intercalate ", "
          (fs.attach.map (fun f => "\x27" ++ f.1.1 ++ "\x27: " ++ pyRepr f.1.2)) ++
        "\x7d"
decreasing_by
  all_goals simp_wf
  · have := List.sizeOf_lt_of_mem x.2
    omega
  · have := List.sizeOf_lt_of_mem f.2
    cases hf : f.1 with
    | mk a b =>
        rw [hf] at this
        simp only [hf] at *
        simp at this ⊢
        omega

/-- Python `str` of a value decoded from JSON, as used by the f-string
`f"- \x7bitem\x7d"` in `GeneratorAgent.generate`. -/
def pyStr (j : Json) : String :=
  match j with
  | .str s => s
  | j2 => pyRepr j2

/-- Python iteration (`for item in feedback`) over a value decoded from JSON:
lists yield their elements, strings their characters, dicts their keys;
scalars raise `TypeError`. -/
def pyIter (j : Json) : Except CauseError (List Json) :=
  match j with
  | .arr xs => Except.ok xs
  | .str s => Except.ok (s.data.map (fun c => Json.str (String.singleton c)))
  | .obj fs => Except.ok (fs.map (fun f => Json.str f.1))
  | .num _ => Except.error (CauseError.typeError "\x27int\x27 object is not iterable")
  | .bool _ => Except.error (CauseError.typeError "\x27bool\x27 object is not iterable")
  | .null => Except.error (CauseError.typeError "\x27NoneType\x27 object is not iterable")

/-- Python `"\n".join`, as used to build the feedback section. -/
def pyJoinNl : List String → String
  | [] => ""
  | [x] => x
  | x :: y :: rest => x ++ "\n" ++ pyJoinNl (y :: rest)

/-- JSON string escaping for `json.dumps` (common escapes; further control
characters and the non-ASCII `\u` escapes are not modelled, and no claim
depends on them). -/
def jsonEscapeChar (c : Char) : String :=
  if c = '\"' then "\\\"" else
  if c = '\\' then "\\\\" else
  if c = '\n' then "\\n" else
  if c = '\t' then "\\t" else
  if c = '\r' then "\\r" else String.singleton c

/-- A JSON string literal as written by `json.dumps`. -/
def jsonQuote (s : String) : String :=
  "\"" ++ String.join (s.data.map jsonEscapeChar) ++ "\""

/-- Indentation emitted by `json.dumps(..., indent=2)` at nesting depth `lvl`. -/
def jsonIndent (lvl : Nat) : String := String.mk (List.replicate (2 * lvl) ' ')

mutual

/-- `json.dumps(j, indent=2)` rendered at nesting depth `lvl`, as used by
`ReviewerAgent.review` to serialize the content under review. -/
def jsonDumps (j : Json) (lvl : Nat) : String :=
  match j with
  | .null => "null"
  | .bool true => "true"
  | .bool false => "false"
  | .num n => toString n
  | .str s => jsonQuote s
  | .arr [] => "[]"
  | .arr (x :: xs) =>
      "[\n" ++ String.intercalate ",\n" (jsonDumpsList (x :: xs) (lvl + 1)) ++
        "\n" ++ jsonIndent lvl ++ "]"
  | .obj [] => "\x7b\x7d"
  | .obj (f :: fs) =>
      "\x7b\n" ++ String.intercalate ",\n" (jsonDumpsFields (f :: fs) (lvl + 1)) ++
        "\n" ++ jsonIndent lvl ++ "\x7d"

/-- Renders each array element of `json.dumps(..., indent=2)` on its own line. -/
def jsonDumpsList (xs : List Json) (lvl : Nat) : List String :=
  match xs with
  | [] => []
  | x :: rest => (jsonIndent lvl ++ jsonDumps x lvl) :: jsonDumpsList rest lvl

/-- Renders each object field of `json.dumps(..., indent=2)` on its own line. -/
def jsonDumpsFields (fs : List (String × Json)) (lvl : Nat) : List String :=
  match fs with
  | [] => []
  | (k, v) :: rest =>
      (jsonIndent lvl ++ jsonQuote k ++ ": " ++ jsonDumps v lvl) :: jsonDumpsFields rest lvl

end

/-! ## The declared output schemas (pydantic models) -/

/-- The `MCQ` pydantic model: a multiple choice question. -/
structure MCQ where
  question : String
  options : List String
  answer : String

/-- The `GeneratorOutput` pydantic model: explanation plus MCQs. -/
structure GeneratorOutput where
  explanation : String
  mcqs : List MCQ

/-- The `ReviewerOutput` pydantic model: a pass or fail status plus feedback
items; `status` is declared `Literal["pass", "fail"]`. -/
structure ReviewerOutput where
  status : String
  feedback : List String

/-- Decodes a JSON value as a string field. -/
def decodeString (j : Json) : Option String :=
  match j with
  | .str s => some s
  | _ => none

/-- Decodes a JSON value as a list of strings. -/
def decodeStringList (j : Json) : Option (List String) :=
  match j with
  | .arr xs => xs.mapM decodeString
  | _ => none

/-- The validation the declared `MCQ` schema induces on a decoded JSON value:
all three fields present with their declared types (extra fields ignored). -/
def decodeMCQ (j : Json) : Option MCQ :=
  match j with
  | .obj fs => do
      let q ← jsonLookup fs "question" >>= decodeString
      let o ← jsonLookup fs "options" >>= decodeStringList
      let a ← jsonLookup fs "answer" >>= decodeString
      some { question := q, options := o, answer := a }
  | _ => none

/-- The validation the declared `GeneratorOutput` schema induces on a decoded
JSON value. The pipeline itself never runs this validation: the library
`JsonOutputParser` uses the pydantic model only for format instructions. -/
def decodeGeneratorOutput (j : Json) : Option GeneratorOutput :=
  match j with
  | .obj fs => do
      let e ← jsonLookup fs "explanation" >>= decodeString
      let m ← jsonLookup fs "mcqs"
      match m with
      | .arr xs => do
          let qs ← xs.mapM decodeMCQ
          some { explanation := e, mcqs := qs }
      | _ => none
  | _ => none

/-- The validation the declared `ReviewerOutput` schema induces on a decoded
JSON value, including the `Literal["pass", "fail"]` constraint on `status`.
Like `decodeGeneratorOutput`, the pipeline never runs it. -/
def decodeReviewerOutput (j : Json) : Option ReviewerOutput :=
  match j with
  | .obj fs => do
      let s ← jsonLookup fs "status" >>= decodeString
      if s = "pass" || s = "fail" then
        let f ← jsonLookup fs "feedback" >>= decodeStringList
        some { status := s, feedback := f }
      else none
  | _ => none

/-- Modelled from the spec: the ContentBundle invariants of section 3 —
a decoded JSON value is a well-typed bundle with exactly 4 questions, each
with exactly 4 options and with `answer` among its `options`. -/
def isValidBundle (j : Json) : Bool :=
  match decodeGeneratorOutput j with
  | none => false
  | some g =>
      g.mcqs.length == 4 &&
        g.mcqs.all (fun q => q.options.length == 4 && q.options.contains q.answer)

/-! ## The agents -/

/-- The per-role ChatGroq client configuration fixed in each `__init__`. -/
structure ChatGroq where
  model : String
  temperature : ℚ

/-- One formatted chat request sent to the text-generation capability,
together with the client configuration it is sent through. -/
structure Request where
  system : String
  user : String
  model : String
  temperature : ℚ

/-- One capability invocation recorded in a run's trace. -/
inductive AgentCall where
  | generatorCall (req : Request) : AgentCall
  | reviewerCall (req : Request) : AgentCall

/-- The external text-generation capability composed with the library JSON
decoding of its raw text answer: given the index of the call within the run
and the formatted request, it produces a decoded JSON value, or the exception
(network failure, or `OutputParserException` on undecodable text) that the
chain raised. -/
def Oracle : Type := Nat → Request → Except CauseError Json

/-- The `GeneratorAgent`: its ChatGroq client and the format-instructions
string its `JsonOutputParser` renders for the `GeneratorOutput` schema
(a library-produced constant, taken as a parameter of construction). -/
structure GeneratorAgent where
  llm : ChatGroq
  formatInstructions : String

/-- The `ReviewerAgent`, analogously. -/
structure ReviewerAgent where
  llm : ChatGroq
  formatInstructions : String

/-- Python falsiness of `os.getenv`'s result (`if not api_key:`):
true when the variable is unset or set to the empty string. -/
def pyFalsyStrOpt : Option String → Bool
  | none => true
  | some s => s.isEmpty

/-- `GeneratorAgent.__init__`: reads `GROQ_API_KEY` from the environment and
raises `ValueError` when it is falsy, before the ChatGroq client (the only
object that could reach the network) is constructed; otherwise fixes the
client configuration `model="llama-3.3-70b-versatile", temperature=0.7`.
Construction is pure: it performs no capability call (no `Oracle` is
involved). -/
def GeneratorAgent.init (env : String → Option String) (fmt : String) :
    Except CauseError GeneratorAgent :=
  if pyFalsyStrOpt (env "GROQ_API_KEY") then
    Except.error (CauseError.valueError "GROQ_API_KEY environment variable is not set")
  else
    Except.ok
      { llm := { model := "llama-3.3-70b-versatile", temperature := 7 / 10 }
        formatInstructions := fmt }

/-- `ReviewerAgent.__init__`: the same credential check, then the client
configuration `model="llama-3.3-70b-versatile", temperature=0.3`. -/
def ReviewerAgent.init (env : String → Option String) (fmt : String) :
    Except CauseError ReviewerAgent :=
  if pyFalsyStrOpt (env "GROQ_API_KEY") then
    Except.error (CauseError.valueError "GROQ_API_KEY environment variable is not set")
  else
    Except.ok
      { llm := { model := "llama-3.3-70b-versatile", temperature := 3 / 10 }
        formatInstructions := fmt }

/-! ## Prompt construction (the ChatPromptTemplate messages, with all
placeholders substituted as `chain.invoke` does) -/

/-- The generator's system message with `format_instructions` substituted. -/
def generatorSystemMessage (fmt : String) : String :=
  "You are an expert educational content creator. \nGenerate age-appropriate educational content including an explanation and multiple choice questions.\n\n" ++
    fmt ++
    "\n\nIMPORTANT: Your output must be valid JSON matching the exact structure specified."

/-- The generator's user message with `grade`, `topic` and `feedback_section`
substituted. -/
def generatorUserMessage (grade : Int) (topic : String) (sec : String) : String :=
  "Create educational content for:\nGrade: " ++ toString grade ++
    "\nTopic: " ++ topic ++ "\n\n" ++ sec ++
    "\n\nRequirements:\n- Language must be appropriate for grade " ++ toString grade ++
    " students\n- Explanation should be clear, engaging, and accurate\n- Create exactly 4 multiple choice questions\n- Each MCQ must have 4 options\n- Ensure concepts are introduced before being tested\n\nReturn ONLY valid JSON, no markdown formatting or code blocks."

/-- The reviewer's system message with `format_instructions` substituted. -/
def reviewerSystemMessage (fmt : String) : String :=
  "You are an expert educational content reviewer.\nEvaluate educational content for age-appropriateness, conceptual correctness, and clarity.\n\n" ++
    fmt ++
    "\n\nIMPORTANT: Your output must be valid JSON matching the exact structure specified."

/-- The reviewer's user message with `grade`, `topic` and the serialized
`content` substituted. -/
def reviewerUserMessage (grade : Int) (topic : String) (contentDump : String) : String :=
  "Review this educational content:\n\nGrade Level: " ++ toString grade ++
    "\nTopic: " ++ topic ++ "\n\nContent to Review:\n" ++ contentDump ++
    "\n\nEvaluation Criteria:\n1. Age Appropriateness: Is the language suitable for grade " ++
    toString grade ++
    "?\n2. Conceptual Correctness: Are all concepts accurate?\n3. Clarity: Is the explanation clear and well-structured?\n4. Question Quality: Do MCQs test introduced concepts appropriately?\n\nProvide specific, actionable feedback. Set status to \"fail\" if there are issues that need fixing.\n\nReturn ONLY valid JSON, no markdown formatting or code blocks."

/-- The `feedback_section` local of `GeneratorAgent.generate`: empty for a
falsy `feedback` argument, otherwise the reviewer directive with one `- `
line per item of the iterated feedback value. Iterating a non-iterable
feedback value raises `TypeError`. -/
def GeneratorAgent.feedbackSection (feedback : Option Json) : Except CauseError String :=
  match feedback with
  | none => Except.ok ""
  | some fb =>
      if fb.truthy then
        match pyIter fb with
        | Except.error e => Except.error e
        | Except.ok items =>
            Except.ok
              ("\nFEEDBACK FROM REVIEWER (Address these issues):\n" ++
                pyJoinNl (items.map (fun it => "- " ++ pyStr it)) ++ "\n")
      else Except.ok ""

/-- `GeneratorAgent.generate(grade, topic, feedback)`: builds the feedback
section, formats the prompt, invokes the chain (capability call `k` of the
run) and returns the decoded JSON response unchanged — the library parser
applies no schema validation. The second component is the list of capability
calls made. -/
def GeneratorAgent.generate (a : GeneratorAgent) (o : Oracle) (k : Nat)
    (grade : Int) (topic : String) (feedback : Option Json) :
    Except CauseError Json × List AgentCall :=
  match GeneratorAgent.feedbackSection feedback with
  | Except.error e => (Except.error e, [])
  | Except.ok sec =>
      let req : Request :=
        { system := generatorSystemMessage a.formatInstructions
          user := generatorUserMessage grade topic sec
          model := a.llm.model
          temperature := a.llm.temperature }
      (o k req, [AgentCall.generatorCall req])

/-- `ReviewerAgent.review(grade, topic, content)`: formats the prompt around
`json.dumps(content, indent=2)`, invokes the chain (capability call `k`), and
returns the decoded JSON response unchanged. -/
def ReviewerAgent.review (a : ReviewerAgent) (o : Oracle) (k : Nat)
    (grade : Int) (topic : String) (content : Json) :
    Except CauseError Json × List AgentCall :=
  let req : Request :=
    { system := reviewerSystemMessage a.formatInstructions
      user := reviewerUserMessage grade topic (jsonDumps content 0)
      model := a.llm.model
      temperature := a.llm.temperature }
  (o k req, [AgentCall.reviewerCall req])

/-! ## The orchestrator -/

/-- The `refinement` entry of the results dict: the refined content and the
`feedback_addressed` value (exactly `review["feedback"]`). -/
structure Refinement where
  content : Json
  feedback_addressed : Json

/-- The results dict `AgentPipeline.run` returns, with its fixed keys; the
nested `input` dict is flattened into `input_grade`/`input_topic`. -/
structure RunRecord where
  input_grade : Int
  input_topic : String
  initial_generation : Json
  initial_review : Json
  refinement : Option Refinement
  final_output : Json

/-- What `run` raises to its caller on failure. The source always raises the
original exception itself (`plain`); the spec (section 7) instead posits a
`PipelineError` wrapper around the cause, included here — modelled from the
spec — so that the wrapping claim is statable. -/
inductive RunError where
  | plain (e : CauseError) : RunError
  | pipelineError (cause : CauseError) : RunError

/-- True exactly on the spec's `PipelineError` wrapper form. -/
def RunError.isPipelineError : RunError → Bool
  | .plain _ => false
  | .pipelineError _ => true

/-- The `AgentPipeline`: both agents, constructed in `__init__`. -/
structure AgentPipeline where
  generator : GeneratorAgent
  reviewer : ReviewerAgent

/-- `AgentPipeline.__init__`: constructs the generator, then the reviewer. -/
def AgentPipeline.init (env : String → Option String) (fmtGen fmtRev : String) :
    Except CauseError AgentPipeline :=
  match GeneratorAgent.init env fmtGen with
  | Except.error e => Except.error e
  | Except.ok g =>
      match ReviewerAgent.init env fmtRev with
      | Except.error e => Except.error e
      | Except.ok r => Except.ok { generator := g, reviewer := r }

/-- `AgentPipeline.run(grade, topic)`: first generation (no feedback), review
of that output, then — exactly when `review["status"] == "fail"` — a second
generation with `review["feedback"]`, which becomes the final output;
otherwise the first output is final. Console prints are ignored. The first
component is the returned results dict, or the exception run raises (always
`RunError.plain`, the original exception); the second is the trace of
capability calls, in order. -/
def AgentPipeline.run (p : AgentPipeline) (o : Oracle) (grade : Int) (topic : String) :
    Except RunError RunRecord × List AgentCall :=
  match p.generator.generate o 0 grade topic none with
  | (Except.error e, t1) => (Except.error (RunError.plain e), t1)
  | (Except.ok initial_content, t1) =>
      match p.reviewer.review o 1 grade topic initial_content with
      | (Except.error e, t2) => (Except.error (RunError.plain e), t1 ++ t2)
      | (Except.ok review, t2) =>
          match pySubscript review "status" with
          | Except.error e => (Except.error (RunError.plain e), t1 ++ t2)
          | Except.ok statusVal =>
              if statusVal.eqStr "fail" then
                match pySubscript review "feedback" with
                | Except.error e => (Except.error (RunError.plain e), t1 ++ t2)
                | Except.ok fb =>
                    match p.generator.generate o 2 grade topic (some fb) with
                    | (Except.error e, t3) => (Except.error (RunError.plain e), t1 ++ t2 ++ t3)
                    | (Except.ok refined_content, t3) =>
                        (Except.ok
                          { input_grade := grade
                            input_topic := topic
                            initial_generation := initial_content
                            initial_review := review
                            refinement :=
                              some { content := refined_content, feedback_addressed := fb }
                            final_output := refined_content }, t1 ++ t2 ++ t3)
              else
                (Except.ok
                  { input_grade := grade
                    input_topic := topic
                    initial_generation := initial_content
                    initial_review := review
                    refinement := none
                    final_output := initial_content }, t1 ++ t2)

/-! ## Trace predicates and string occurrence -/

/-- True exactly on generator capability calls. -/
def AgentCall.isGenerator : AgentCall → Bool
  | .generatorCall _ => true
  | .reviewerCall _ => false

/-- True exactly on reviewer capability calls. -/
def AgentCall.isReviewer : AgentCall → Bool
  | .generatorCall _ => false
  | .reviewerCall _ => true

/-- `mid` occurs contiguously inside `s`. -/
def occursIn (mid s : String) : Prop := ∃ pre post, s = pre ++ mid ++ post

/-! ## Concrete fixtures used by witnesses and counterexamples -/

/-- An environment with no variables set. -/
def envNoKey : String → Option String := fun _ => none

/-- An environment in which the required credential is present. -/
def envWithKey : String → Option String :=
  fun k => if k = "GROQ_API_KEY" then some "gsk-test-key" else none

/-- The pipeline `AgentPipeline.__init__` constructs when the credential is
present, with empty format-instruction strings. -/
def pipe0 : AgentPipeline :=
  { generator :=
      { llm := { model := "llama-3.3-70b-versatile", temperature := 7 / 10 }
        formatInstructions := "" }
    reviewer :=
      { llm := { model := "llama-3.3-70b-versatile", temperature := 3 / 10 }
        formatInstructions := "" } }

/-- A four-option MCQ in wire shape. -/
def mcqJson (q o1 o2 o3 o4 a : String) : Json :=
  Json.obj
    [("question", Json.str q),
     ("options", Json.arr [Json.str o1, Json.str o2, Json.str o3, Json.str o4]),
     ("answer", Json.str a)]

/-- A bundle satisfying every ContentBundle invariant. -/
def goodBundle : Json :=
  Json.obj
    [("explanation", Json.str "An angle measures the amount of turn between two rays."),
     ("mcqs", Json.arr
        [mcqJson "Which angle is smaller than a right angle?" "Acute" "Right" "Obtuse" "Straight" "Acute",
         mcqJson "How many degrees are in a right angle?" "45" "90" "120" "180" "90",
         mcqJson "Which angle is larger than a right angle but less than a straight angle?" "Acute" "Right" "Obtuse" "Reflex" "Obtuse",
         mcqJson "How many degrees are in a straight angle?" "60" "90" "120" "180" "180"])]

/-- A second valid bundle, standing for refined content. -/
def refinedBundle : Json :=
  Json.obj
    [("explanation", Json.str "An angle shows how far something has turned."),
     ("mcqs", Json.arr
        [mcqJson "A corner of a square makes which angle?" "Acute" "Right" "Obtuse" "Straight" "Right",
         mcqJson "Which angle looks like an open book lying flat?" "Acute" "Right" "Obtuse" "Straight" "Straight",
         mcqJson "Which of these is an acute angle?" "30 degrees" "90 degrees" "120 degrees" "180 degrees" "30 degrees",
         mcqJson "Which of these is an obtuse angle?" "30 degrees" "60 degrees" "120 degrees" "90 degrees" "120 degrees"])]

/-- A fully-typed but invariant-violating bundle: it decodes to a
`GeneratorOutput` with zero questions. -/
def badBundle : Json :=
  Json.obj
    [("explanation", Json.str "Angles measure turns."),
     ("mcqs", Json.arr [])]

/-- A passing review in wire shape. -/
def passReview : Json :=
  Json.obj [("status", Json.str "pass"), ("feedback", Json.arr [])]

/-- A failing review with one feedback item. -/
def failReview : Json :=
  Json.obj
    [("status", Json.str "fail"),
     ("feedback", Json.arr [Json.str "Explanation too advanced for grade 4"])]

/-- A failing review whose feedback list is empty. -/
def emptyFailReview : Json :=
  Json.obj [("status", Json.str "fail"), ("feedback", Json.arr [])]

/-- A review whose status is a string other than the exact `"fail"`. -/
def capsFailReview : Json :=
  Json.obj [("status", Json.str "FAIL"), ("feedback", Json.arr [])]

/-- Capability behavior: a valid first bundle, then a passing review. -/
def oraclePass : Oracle := fun k _ =>
  if k = 0 then Except.ok goodBundle else Except.ok passReview

/-- Capability behavior: a valid first bundle, a failing review with one
feedback item, then a valid refined bundle. -/
def oracleFail : Oracle := fun k _ =>
  if k = 0 then Except.ok goodBundle
  else if k = 1 then Except.ok failReview
  else Except.ok refinedBundle

/-- Capability behavior: a malformed zero-question bundle, then a passing
review. -/
def oracleBad : Oracle := fun k _ =>
  if k = 0 then Except.ok badBundle else Except.ok passReview

/-- Capability behavior: the capability is unreachable from the first call. -/
def oracleNetFail : Oracle := fun _ _ =>
  Except.error (CauseError.llmError "connection error")

/-- Capability behavior: a valid bundle, a review failing with an empty
feedback list, then a valid refined bundle. -/
def oracleEmptyFail : Oracle := fun k _ =>
  if k = 0 then Except.ok goodBundle
  else if k = 1 then Except.ok emptyFailReview
  else Except.ok refinedBundle

/-- Capability behavior: a valid bundle, then a review whose status string is
`"FAIL"` rather than `"fail"`. -/
def oracleCapsFail : Oracle := fun k _ =>
  if k = 0 then Except.ok goodBundle else Except.ok capsFailReview

/-- The record `run` assembles for `oracleFail` at grade 4, topic
"Types of angles". -/
def runRecFail : RunRecord :=
  { input_grade := 4
    input_topic := "Types of angles"
    initial_generation := goodBundle
    initial_review := failReview
    refinement :=
      some { content := refinedBundle
             feedback_addressed := Json.arr [Json.str "Explanation too advanced for grade 4"] }
    final_output := refinedBundle }

/-- The record `run` assembles for `oracleEmptyFail` at grade 4, topic
"Types of angles". -/
def runRecEmptyFail : RunRecord :=
  { input_grade := 4
    input_topic := "Types of angles"
    initial_generation := goodBundle
    initial_review := emptyFailReview
    refinement := some { content := refinedBundle, feedback_addressed := Json.arr [] }
    final_output := refinedBundle }

/-- The library `JsonOutputParser.parse_result` as instantiated at
`agent_system.py` lines 44 and 116: it strips the completion text and decodes
it as JSON (`parse_json_markdown`, which also removes markdown code fences);
a decodable text's JSON value is returned to the caller unchanged — the
`pydantic_object` argument is used only for `get_format_instructions`, and no
schema validation is applied — while an undecodable text raises
`OutputParserException` carrying the raw output. The external JSON decode of
the raw text is represented by its result `decoded`. -/
def jsonOutputParserParseResult (decoded : Option Json) (rawText : String) :
    Except CauseError Json :=
  match decoded with
  | some j => Except.ok j
  | none =>
      Except.error (CauseError.outputParserException ("Invalid json output: " ++ rawText))

/-! ## Inversion lemmas about `run` -/

/-- Any successful `run` outcome has the shape of one of the two branches of
the status test: accepted (status not the exact string `"fail"`) with no
refinement, or refined (status exactly `"fail"`) with the refinement record
populated from `review["feedback"]` and the second generation. -/
theorem run_ok_inv (p : AgentPipeline) (o : Oracle) (grade : Int) (topic : String)
    (r : RunRecord) (h : (AgentPipeline.run p o grade topic).1 = Except.ok r) :
    r.input_grade = grade ∧ r.input_topic = topic ∧
    ∃ statusVal, pySubscript r.initial_review "status" = Except.ok statusVal ∧
      ((statusVal.eqStr "fail" = false ∧ r.refinement = none ∧
          r.final_output = r.initial_generation) ∨
       (statusVal.eqStr "fail" = true ∧
          ∃ ref, r.refinement = some ref ∧
            pySubscript r.initial_review "feedback" = Except.ok ref.feedback_addressed ∧
            r.final_output = ref.content)) := by
  unfold AgentPipeline.run at h
  split at h
  · exact absurd h (by simp)
  · rename_i initial t1 heq1
    split at h
    · exact absurd h (by simp)
    · rename_i review t2 heq2
      split at h
      · exact absurd h (by simp)
      · rename_i statusVal heq3
        by_cases hf : statusVal.eqStr "fail" = true
        · rw [if_pos hf] at h
          split at h
          · exact absurd h (by simp)
          · rename_i fb heq4
            split at h
            · exact absurd h (by simp)
            · rename_i refined t3 heq5
              simp only [Except.ok.injEq] at h
              subst h
              exact ⟨rfl, rfl, statusVal, heq3,
                Or.inr ⟨hf, ⟨refined, fb⟩, rfl, heq4, rfl⟩⟩
        · rw [if_neg hf] at h
          simp only [Except.ok.injEq] at h
          subst h
          exact ⟨rfl, rfl, statusVal, heq3,
            Or.inl ⟨by simpa using hf, rfl, rfl⟩⟩

/-- The capability-call trace of any `run` is one of three shapes: the first
generator call alone, that call followed by the one reviewer call, or those
two followed by the one refinement generator call — in particular the
reviewer is never invoked after the refinement. Every request in the trace
carries the client configuration its agent fixed at construction. -/
theorem run_trace_inv (p : AgentPipeline) (o : Oracle) (grade : Int) (topic : String) :
    (∃ a, (AgentPipeline.run p o grade topic).2 = [AgentCall.generatorCall a] ∧
        a.model = p.generator.llm.model ∧ a.temperature = p.generator.llm.temperature) ∨
    (∃ a b, (AgentPipeline.run p o grade topic).2 =
        [AgentCall.generatorCall a, AgentCall.reviewerCall b] ∧
        a.model = p.generator.llm.model ∧ a.temperature = p.generator.llm.temperature ∧
        b.model = p.reviewer.llm.model ∧ b.temperature = p.reviewer.llm.temperature) ∨
    (∃ a b c, (AgentPipeline.run p o grade topic).2 =
        [AgentCall.generatorCall a, AgentCall.reviewerCall b, AgentCall.generatorCall c] ∧
        a.model = p.generator.llm.model ∧ a.temperature = p.generator.llm.temperature ∧
        b.model = p.reviewer.llm.model ∧ b.temperature = p.reviewer.llm.temperature ∧
        c.model = p.generator.llm.model ∧ c.temperature = p.generator.llm.temperature) := by
  unfold AgentPipeline.run
  split
  · rename_i e t1 heq1
    simp only [GeneratorAgent.generate, GeneratorAgent.feedbackSection, Prod.mk.injEq] at heq1
    obtain ⟨-, ht1⟩ := heq1
    subst ht1
    exact Or.inl ⟨_, rfl, rfl, rfl⟩
  · rename_i initial t1 heq1
    simp only [GeneratorAgent.generate, GeneratorAgent.feedbackSection, Prod.mk.injEq] at heq1
    obtain ⟨-, ht1⟩ := heq1
    subst ht1
    split
    · rename_i e t2 heq2
      simp only [ReviewerAgent.review, Prod.mk.injEq] at heq2
      obtain ⟨-, ht2⟩ := heq2
      subst ht2
      exact Or.inr (Or.inl ⟨_, _, rfl, rfl, rfl, rfl, rfl⟩)
    · rename_i review t2 heq2
      simp only [ReviewerAgent.review, Prod.mk.injEq] at heq2
      obtain ⟨-, ht2⟩ := heq2
      subst ht2
      split
      · exact Or.inr (Or.inl ⟨_, _, rfl, rfl, rfl, rfl, rfl⟩)
      · rename_i statusVal heq3
        split
        · split
          · exact Or.inr (Or.inl ⟨_, _, rfl, rfl, rfl, rfl, rfl⟩)
          · rename_i fb heq4
            split
            · rename_i e t3 heq5
              rcases hsec : GeneratorAgent.feedbackSection (some fb) with e2 | sec
              · simp only [GeneratorAgent.generate, hsec, Prod.mk.injEq] at heq5
                obtain ⟨-, ht3⟩ := heq5
                subst ht3
                exact Or.inr (Or.inl ⟨_, _, rfl, rfl, rfl, rfl, rfl⟩)
              · simp only [GeneratorAgent.generate, hsec, Prod.mk.injEq] at heq5
                obtain ⟨-, ht3⟩ := heq5
                subst ht3
                exact Or.inr (Or.inr ⟨_, _, _, rfl, rfl, rfl, rfl, rfl, rfl, rfl⟩)
            · rename_i refined t3 heq5
              rcases hsec : GeneratorAgent.feedbackSection (some fb) with e2 | sec
              · simp only [GeneratorAgent.generate, hsec, Prod.mk.injEq] at heq5
                exact absurd heq5.1 (by simp)
              · simp only [GeneratorAgent.generate, hsec, Prod.mk.injEq] at heq5
                obtain ⟨-, ht3⟩ := heq5
                subst ht3
                exact Or.inr (Or.inr ⟨_, _, _, rfl, rfl, rfl, rfl, rfl, rfl, rfl⟩)
        · exact Or.inr (Or.inl ⟨_, _, rfl, rfl, rfl, rfl, rfl⟩)

/-! ## Claims -/

/-- C1: for every `run(grade, topic)` that completes without raising, the
result record obeys the review branch exactly: if the review status is Pass
(the wire string `"pass"`) the refinement field is absent and `final_output`
equals `initial_generation`; if it is Fail (the wire string `"fail"`) the
refinement is present, its `feedback_addressed` equals the `feedback` entry
of `initial_review`, and `final_output` equals the refinement's content. -/
theorem genrev_C1 (p : AgentPipeline) (o : Oracle) (grade : Int) (topic : String)
    (r : RunRecord) (h : (AgentPipeline.run p o grade topic).1 = Except.ok r) :
    (pySubscript r.initial_review "status" = Except.ok (Json.str "pass") →
        r.refinement = none ∧ r.final_output = r.initial_generation) ∧
    (pySubscript r.initial_review "status" = Except.ok (Json.str "fail") →
        ∃ ref, r.refinement = some ref ∧
          pySubscript r.initial_review "feedback" = Except.ok ref.feedback_addressed ∧
          r.final_output = ref.content) := by
  obtain ⟨-, -, statusVal, hstat, hbranch⟩ := run_ok_inv p o grade topic r h
  constructor
  · intro hpass
    have hsv : statusVal = Json.str "pass" := by
      have := hstat.symm.trans hpass
      simpa using this
    rcases hbranch with ⟨-, hnone, hfin⟩ | ⟨heq, -⟩
    · exact ⟨hnone, hfin⟩
    · rw [hsv] at heq
      simp [Json.eqStr] at heq
  · intro hfail
    have hsv : statusVal = Json.str "fail" := by
      have := hstat.symm.trans hfail
      simpa using this
    rcases hbranch with ⟨hne, -⟩ | ⟨-, hex⟩
    · rw [hsv] at hne
      simp [Json.eqStr] at hne
    · exact hex

/-- Witness for C1: a concrete run through the Fail branch. -/
theorem genrev_C1_witness :
    (AgentPipeline.run pipe0 oracleFail 4 "Types of angles").1 = Except.ok runRecFail ∧
    ((pySubscript runRecFail.initial_review "status" = Except.ok (Json.str "pass") →
        runRecFail.refinement = none ∧
          runRecFail.final_output = runRecFail.initial_generation) ∧
     (pySubscript runRecFail.initial_review "status" = Except.ok (Json.str "fail") →
        ∃ ref, runRecFail.refinement = some ref ∧
          pySubscript runRecFail.initial_review "feedback" = Except.ok ref.feedback_addressed ∧
          runRecFail.final_output = ref.content)) :=
  ⟨rfl, genrev_C1 pipe0 oracleFail 4 "Types of angles" runRecFail rfl⟩

/-- C3: in any single `run`, the generator is invoked at most twice and the
reviewer at most once; the trace always has one of the three shapes
generator-only, generator-reviewer, generator-reviewer-generator, so a
refined bundle is never submitted to a second review. -/
theorem genrev_C3 (p : AgentPipeline) (o : Oracle) (grade : Int) (topic : String) :
    ((AgentPipeline.run p o grade topic).2.countP AgentCall.isGenerator ≤ 2 ∧
     (AgentPipeline.run p o grade topic).2.countP AgentCall.isReviewer ≤ 1) ∧
    ((∃ a, (AgentPipeline.run p o grade topic).2 = [AgentCall.generatorCall a]) ∨
     (∃ a b, (AgentPipeline.run p o grade topic).2 =
        [AgentCall.generatorCall a, AgentCall.reviewerCall b]) ∨
     (∃ a b c, (AgentPipeline.run p o grade topic).2 =
        [AgentCall.generatorCall a, AgentCall.reviewerCall b, AgentCall.generatorCall c])) := by
  rcases run_trace_inv p o grade topic with ⟨a, h, -⟩ | ⟨a, b, h, -⟩ | ⟨a, b, c, h, -⟩ <;>
    rw [h] <;>
    exact ⟨by constructor <;>
        simp [List.countP_cons, AgentCall.isGenerator, AgentCall.isReviewer],
      by simp⟩

/-- C5: when the required `GROQ_API_KEY` credential is absent (unset, or the
falsy empty string), constructing either agent — and hence the pipeline —
raises the configuration `ValueError` at construction time; since
construction takes no capability oracle at all, no network call can be
attempted, and no agent holding a ChatGroq client is ever produced. -/
theorem genrev_C5 (env : String → Option String) (fmtG fmtR : String)
    (h : env "GROQ_API_KEY" = none ∨ env "GROQ_API_KEY" = some "") :
    GeneratorAgent.init env fmtG =
        Except.error (CauseError.valueError "GROQ_API_KEY environment variable is not set") ∧
    ReviewerAgent.init env fmtR =
        Except.error (CauseError.valueError "GROQ_API_KEY environment variable is not set") ∧
    AgentPipeline.init env fmtG fmtR =
        Except.error (CauseError.valueError "GROQ_API_KEY environment variable is not set") := by
  have hf : pyFalsyStrOpt (env "GROQ_API_KEY") = true := by
    rcases h with h | h <;> rw [h] <;> rfl
  refine ⟨?_, ?_, ?_⟩ <;>
    simp [GeneratorAgent.init, ReviewerAgent.init, AgentPipeline.init, hf]

/-- Witness for C5: the empty environment. -/
theorem genrev_C5_witness :
    GeneratorAgent.init envNoKey "" =
        Except.error (CauseError.valueError "GROQ_API_KEY environment variable is not set") ∧
    ReviewerAgent.init envNoKey "" =
        Except.error (CauseError.valueError "GROQ_API_KEY environment variable is not set") ∧
    AgentPipeline.init envNoKey "" "" =
        Except.error (CauseError.valueError "GROQ_API_KEY environment variable is not set") :=
  genrev_C5 envNoKey "" "" (Or.inl rfl)

/-- C8: for any pipeline the constructor accepts, the reviewer's client is
configured with strictly lower temperature (0.3) than the generator's (0.7),
and every capability request of any run — first pass or refinement — carries
exactly the model and temperature its role fixed at construction. -/
theorem genrev_C8 (env : String → Option String) (fmtG fmtR : String) (p : AgentPipeline)
    (h : AgentPipeline.init env fmtG fmtR = Except.ok p)
    (o : Oracle) (grade : Int) (topic : String) :
    p.reviewer.llm.temperature < p.generator.llm.temperature ∧
    p.reviewer.llm.temperature = 3 / 10 ∧ p.generator.llm.temperature = 7 / 10 ∧
    (∀ req, AgentCall.generatorCall req ∈ (AgentPipeline.run p o grade topic).2 →
        req.model = p.generator.llm.model ∧ req.temperature = p.generator.llm.temperature) ∧
    (∀ req, AgentCall.reviewerCall req ∈ (AgentPipeline.run p o grade topic).2 →
        req.model = p.reviewer.llm.model ∧ req.temperature = p.reviewer.llm.temperature) := by
  have hp : p.reviewer.llm.temperature = 3 / 10 ∧ p.generator.llm.temperature = 7 / 10 := by
    unfold AgentPipeline.init GeneratorAgent.init ReviewerAgent.init at h
    by_cases hk : pyFalsyStrOpt (env "GROQ_API_KEY") = true
    · simp [hk] at h
    · simp [hk] at h
      rw [← h]
      exact ⟨rfl, rfl⟩
  refine ⟨by rw [hp.1, hp.2]; norm_num, hp.1, hp.2, ?_, ?_⟩
  · intro req hmem
    rcases run_trace_inv p o grade topic with ⟨a, ht, haM, haT⟩ |
        ⟨a, b, ht, haM, haT, hbM, hbT⟩ | ⟨a, b, c, ht, haM, haT, hbM, hbT, hcM, hcT⟩
    · rw [ht] at hmem
      simp at hmem
      subst hmem
      exact ⟨haM, haT⟩
    · rw [ht] at hmem
      simp at hmem
      subst hmem
      exact ⟨haM, haT⟩
    · rw [ht] at hmem
      simp at hmem
      rcases hmem with hmem | hmem
      · subst hmem
        exact ⟨haM, haT⟩
      · subst hmem
        exact ⟨hcM, hcT⟩
  · intro req hmem
    rcases run_trace_inv p o grade topic with ⟨a, ht, haM, haT⟩ |
        ⟨a, b, ht, haM, haT, hbM, hbT⟩ | ⟨a, b, c, ht, haM, haT, hbM, hbT, hcM, hcT⟩
    · rw [ht] at hmem
      simp at hmem
    · rw [ht] at hmem
      simp at hmem
      subst hmem
      exact ⟨hbM, hbT⟩
    · rw [ht] at hmem
      simp at hmem
      subst hmem
      exact ⟨hbM, hbT⟩

/-- Witness for C8 at the concrete constructed pipeline and a concrete run. -/
theorem genrev_C8_witness :
    AgentPipeline.init envWithKey "" "" = Except.ok pipe0 ∧
    (pipe0.reviewer.llm.temperature < pipe0.generator.llm.temperature ∧
     pipe0.reviewer.llm.temperature = 3 / 10 ∧ pipe0.generator.llm.temperature = 7 / 10 ∧
     (∀ req, AgentCall.generatorCall req ∈ (AgentPipeline.run pipe0 oraclePass 4 "Types of angles").2 →
        req.model = pipe0.generator.llm.model ∧
          req.temperature = pipe0.generator.llm.temperature) ∧
     (∀ req, AgentCall.reviewerCall req ∈ (AgentPipeline.run pipe0 oraclePass 4 "Types of angles").2 →
        req.model = pipe0.reviewer.llm.model ∧
          req.temperature = pipe0.reviewer.llm.temperature)) :=
  ⟨rfl, genrev_C8 envWithKey "" "" pipe0 rfl oraclePass 4 "Types of angles"⟩

/-- C10: `run` branches on exact string equality with `"fail"` only — when the
first generation and the review succeed and the review's `status` entry is
any value other than the exact string `"fail"` (including values outside the
declared pass/fail pair), `run` completes on the Accepted path: `refinement`
stays `none` and `final_output` equals the initial generation. -/
theorem genrev_C10 (p : AgentPipeline) (o : Oracle) (grade : Int) (topic : String)
    (initial review statusVal : Json)
    (h1 : (p.generator.generate o 0 grade topic none).1 = Except.ok initial)
    (h2 : (p.reviewer.review o 1 grade topic initial).1 = Except.ok review)
    (hs : pySubscript review "status" = Except.ok statusVal)
    (hv : statusVal ≠ Json.str "fail") :
    (AgentPipeline.run p o grade topic).1 =
      Except.ok
        { input_grade := grade
          input_topic := topic
          initial_generation := initial
          initial_review := review
          refinement := none
          final_output := initial } := by
  have hb : statusVal.eqStr "fail" = false := by
    cases statusVal with
    | str t =>
        simp [Json.eqStr]
        intro hcontra
        exact hv (by rw [hcontra])
    | _ => rfl
  rcases hg : p.generator.generate o 0 grade topic none with ⟨res1, t1⟩
  rw [hg] at h1
  have h1e : res1 = Except.ok initial := h1
  subst h1e
  rcases hr : p.reviewer.review o 1 grade topic initial with ⟨res2, t2⟩
  rw [hr] at h2
  have h2e : res2 = Except.ok review := h2
  subst h2e
  unfold AgentPipeline.run
  simp only [hg]
  simp only [hr]
  simp [hs, hb]

/-- Witness for C10: a review whose status string is `"FAIL"` (not the exact
lowercase `"fail"`) sends the run down the Accepted path. -/
theorem genrev_C10_witness :
    (AgentPipeline.run pipe0 oracleCapsFail 4 "Types of angles").1 =
      Except.ok
        { input_grade := 4
          input_topic := "Types of angles"
          initial_generation := goodBundle
          initial_review := capsFailReview
          refinement := none
          final_output := goodBundle } :=
  genrev_C10 pipe0 oracleCapsFail 4 "Types of angles" goodBundle capsFailReview
    (Json.str "FAIL") rfl rfl rfl
    (fun hcontra => by injection hcontra with h2; exact absurd h2 (by decide))

/-- C9: when a completed run's review has status exactly `"fail"` but an empty
feedback list, the run still takes the refinement branch — `refinement` is
present with `feedback_addressed = []` — yet the second generation request is
identical to the first-pass request: the empty list is falsy, so no feedback
section is added to the prompt. -/
theorem genrev_C9 (p : AgentPipeline) (o : Oracle) (grade : Int) (topic : String)
    (r : RunRecord)
    (h : (AgentPipeline.run p o grade topic).1 = Except.ok r)
    (hs : pySubscript r.initial_review "status" = Except.ok (Json.str "fail"))
    (hf : pySubscript r.initial_review "feedback" = Except.ok (Json.arr [])) :
    (∃ ref, r.refinement = some ref ∧ ref.feedback_addressed = Json.arr []) ∧
    (∃ a b, (AgentPipeline.run p o grade topic).2 =
        [AgentCall.generatorCall a, AgentCall.reviewerCall b, AgentCall.generatorCall a]) := by
  unfold AgentPipeline.run at h ⊢
  split at h
  · exact absurd h (by simp)
  · rename_i initial t1 heq1
    split at h
    · exact absurd h (by simp)
    · rename_i review t2 heq2
      split at h
      · exact absurd h (by simp)
      · rename_i statusVal heq3
        by_cases hguard : statusVal.eqStr "fail" = true
        · rw [if_pos hguard] at h
          split at h
          · exact absurd h (by simp)
          · rename_i fb heq4
            split at h
            · exact absurd h (by simp)
            · rename_i refined t3 heq5
              simp only [Except.ok.injEq] at h
              subst h
              simp only at hs hf
              have hfb : fb = Json.arr [] := by
                have := heq4.symm.trans hf
                simpa using this
              subst hfb
              simp only [GeneratorAgent.generate, GeneratorAgent.feedbackSection,
                Json.truthy, List.isEmpty_nil, Bool.not_true, Bool.false_eq_true,
                if_false, Prod.mk.injEq] at heq1 heq5
              obtain ⟨-, ht1⟩ := heq1
              obtain ⟨-, ht3⟩ := heq5
              simp only [ReviewerAgent.review, Prod.mk.injEq] at heq2
              obtain ⟨-, ht2⟩ := heq2
              refine ⟨⟨_, rfl, rfl⟩, ?_⟩
              simp only [heq3, hguard, if_true]
              rw [← ht1, ← ht2, ← ht3]
              exact ⟨_, _, rfl⟩
        · rw [if_neg hguard] at h
          simp only [Except.ok.injEq] at h
          subst h
          simp only at hs
          have hsv : statusVal = Json.str "fail" := by
            have := heq3.symm.trans hs
            simpa using this
          rw [hsv] at hguard
          simp [Json.eqStr] at hguard

/-- Embedding an occurrence into a larger string. -/
theorem occursIn_extend (m s x y : String) (h : occursIn m s) :
    occursIn m (x ++ s ++ y) := by
  obtain ⟨pre, post, rfl⟩ := h
  exact ⟨x ++ pre, post ++ y, by simp [String.append_assoc]⟩

/-- Every listed item occurs, prefixed by its own `- ` marker, in the joined
feedback block. -/
theorem occursIn_pyJoinNl (it : String) (items : List String) (h : it ∈ items) :
    occursIn ("- " ++ it) (pyJoinNl (items.map (fun x => "- " ++ x))) := by
  induction items with
  | nil => cases h
  | cons a rest ih =>
      rcases List.mem_cons.mp h with rfl | hmem
      · cases rest with
        | nil =>
            exact ⟨"", "", by simp [pyJoinNl, String.empty_append, String.append_empty]⟩
        | cons b rs =>
            refine ⟨"", "\n" ++ pyJoinNl ((b :: rs).map (fun x => "- " ++ x)), ?_⟩
            simp [pyJoinNl, String.empty_append, String.append_assoc]
      · cases rest with
        | nil => cases hmem
        | cons b rs =>
            obtain ⟨pre, post, hEq⟩ := ih hmem
            refine ⟨"- " ++ a ++ "\n" ++ pre, post, ?_⟩
            simp only [List.map_cons] at hEq
            simp only [List.map_cons, pyJoinNl, hEq]
            simp [String.append_assoc]

/-- C7: called with a non-empty feedback list (as `run` does on the Fail
branch with exactly the review's feedback), the generator builds its request
around an explicit "Address these issues" directive: the user message embeds
the directive header and the feedback block joining one `- item` line per
feedback item, and every item occurs in the message after its `- ` marker.
With no feedback argument, the feedback section is absent (empty). -/
theorem genrev_C7 (a : GeneratorAgent) (o : Oracle) (k : Nat) (grade : Int)
    (topic : String) (items : List String) (h : items ≠ []) :
    (∃ req, (a.generate o k grade topic (some (Json.arr (items.map Json.str)))).2 =
          [AgentCall.generatorCall req] ∧
        req.user = generatorUserMessage grade topic
            ("\nFEEDBACK FROM REVIEWER (Address these issues):\n" ++
              pyJoinNl (items.map (fun it => "- " ++ it)) ++ "\n") ∧
        occursIn "FEEDBACK FROM REVIEWER (Address these issues):" req.user ∧
        (∀ it ∈ items, occursIn ("- " ++ it) req.user)) ∧
    (∃ req0, (a.generate o k grade topic none).2 = [AgentCall.generatorCall req0] ∧
        req0.user = generatorUserMessage grade topic "") := by
  have hmapne : (items.map Json.str).isEmpty = false := by
    cases items with
    | nil => exact absurd rfl h
    | cons x xs => rfl
  have hmm : (items.map Json.str).map (fun it => "- " ++ pyStr it) =
      items.map (fun it => "- " ++ it) := by
    rw [List.map_map]
    rfl
  have hsec : GeneratorAgent.feedbackSection (some (Json.arr (items.map Json.str))) =
      Except.ok ("\nFEEDBACK FROM REVIEWER (Address these issues):\n" ++
        pyJoinNl (items.map (fun it => "- " ++ it)) ++ "\n") := by
    simp [GeneratorAgent.feedbackSection, Json.truthy, hmapne, pyIter, hmm]
  have hoccSec : ∀ m body : String,
      occursIn m ("\nFEEDBACK FROM REVIEWER (Address these issues):\n" ++ body ++ "\n") →
      occursIn m (generatorUserMessage grade topic
        ("\nFEEDBACK FROM REVIEWER (Address these issues):\n" ++ body ++ "\n")) := by
    intro m body hm
    have hdecomp : generatorUserMessage grade topic
        ("\nFEEDBACK FROM REVIEWER (Address these issues):\n" ++ body ++ "\n") =
        ("Create educational content for:\nGrade: " ++ toString grade ++
            "\nTopic: " ++ topic ++ "\n\n") ++
          ("\nFEEDBACK FROM REVIEWER (Address these issues):\n" ++ body ++ "\n") ++
          ("\n\nRequirements:\n- Language must be appropriate for grade " ++ toString grade ++
            " students\n- Explanation should be clear, engaging, and accurate\n- Create exactly 4 multiple choice questions\n- Each MCQ must have 4 options\n- Ensure concepts are introduced before being tested\n\nReturn ONLY valid JSON, no markdown formatting or code blocks.") := by
      unfold generatorUserMessage
      simp only [String.append_assoc]
    rw [hdecomp]
    exact occursIn_extend m
      ("\nFEEDBACK FROM REVIEWER (Address these issues):\n" ++ body ++ "\n")
      ("Create educational content for:\nGrade: " ++ toString grade ++
        "\nTopic: " ++ topic ++ "\n\n")
      ("\n\nRequirements:\n- Language must be appropriate for grade " ++ toString grade ++
        " students\n- Explanation should be clear, engaging, and accurate\n- Create exactly 4 multiple choice questions\n- Each MCQ must have 4 options\n- Ensure concepts are introduced before being tested\n\nReturn ONLY valid JSON, no markdown formatting or code blocks.")
      hm
  constructor
  · refine ⟨{ system := generatorSystemMessage a.formatInstructions
              user := generatorUserMessage grade topic
                ("\nFEEDBACK FROM REVIEWER (Address these issues):\n" ++
                  pyJoinNl (items.map (fun it => "- " ++ it)) ++ "\n")
              model := a.llm.model
              temperature := a.llm.temperature }, ?_, rfl, ?_, ?_⟩
    · simp [GeneratorAgent.generate, hsec]
    · refine hoccSec _ _
        ⟨"\n", "\n" ++ pyJoinNl (items.map (fun it => "- " ++ it)) ++ "\n", ?_⟩
      have hlit : ("\nFEEDBACK FROM REVIEWER (Address these issues):\n" : String) =
          "\n" ++ ("FEEDBACK FROM REVIEWER (Address these issues):" ++ "\n") := rfl
      rw [hlit]
      simp only [String.append_assoc]
    · intro it hit
      refine hoccSec _ _ ?_
      exact occursIn_extend _ _ _ _ (occursIn_pyJoinNl it items hit)
  · exact ⟨{ system := generatorSystemMessage a.formatInstructions
             user := generatorUserMessage grade topic ""
             model := a.llm.model
             temperature := a.llm.temperature },
      by simp [GeneratorAgent.generate, GeneratorAgent.feedbackSection], rfl⟩

/-- Witness for C7 at the singleton feedback list of spec Scenario B. -/
theorem genrev_C7_witness :
    ((["Explanation too advanced for grade 4"] : List String) ≠ []) ∧
    ((∃ req, (pipe0.generator.generate oracleFail 2 4 "Types of angles"
          (some (Json.arr
            ((["Explanation too advanced for grade 4"] : List String).map Json.str)))).2 =
          [AgentCall.generatorCall req] ∧
        req.user = generatorUserMessage 4 "Types of angles"
            ("\nFEEDBACK FROM REVIEWER (Address these issues):\n" ++
              pyJoinNl ((["Explanation too advanced for grade 4"] : List String).map
                (fun it => "- " ++ it)) ++ "\n") ∧
        occursIn "FEEDBACK FROM REVIEWER (Address these issues):" req.user ∧
        (∀ it ∈ (["Explanation too advanced for grade 4"] : List String),
            occursIn ("- " ++ it) req.user)) ∧
     (∃ req0, (pipe0.generator.generate oracleFail 2 4 "Types of angles" none).2 =
          [AgentCall.generatorCall req0] ∧
        req0.user = generatorUserMessage 4 "Types of angles" "")) :=
  ⟨by simp, genrev_C7 pipe0.generator oracleFail 2 4 "Types of angles"
    ["Explanation too advanced for grade 4"] (by simp)⟩

/-- Witness for C9: a concrete run whose review fails with empty feedback. -/
theorem genrev_C9_witness :
    (AgentPipeline.run pipe0 oracleEmptyFail 4 "Types of angles").1 =
        Except.ok runRecEmptyFail ∧
    pySubscript runRecEmptyFail.initial_review "status" = Except.ok (Json.str "fail") ∧
    pySubscript runRecEmptyFail.initial_review "feedback" = Except.ok (Json.arr []) ∧
    ((∃ ref, runRecEmptyFail.refinement = some ref ∧
        ref.feedback_addressed = Json.arr []) ∧
     (∃ a b, (AgentPipeline.run pipe0 oracleEmptyFail 4 "Types of angles").2 =
        [AgentCall.generatorCall a, AgentCall.reviewerCall b, AgentCall.generatorCall a])) :=
  ⟨rfl, rfl, rfl,
    genrev_C9 pipe0 oracleEmptyFail 4 "Types of angles" runRecEmptyFail rfl rfl rfl⟩

/-- Counterexample for C2 as stated: with a capability response that decodes
to a fully-typed `GeneratorOutput` with zero questions, `run` completes
without raising and returns that malformed bundle as `final_output` — the
pipeline applies no ContentBundle-invariant validation anywhere. -/
theorem genrev_C2_counterexample :
    Except.map RunRecord.final_output
        (AgentPipeline.run pipe0 oracleBad 4 "Types of angles").1 =
      Except.ok badBundle ∧
    decodeGeneratorOutput badBundle =
      some { explanation := "Angles measure turns.", mcqs := [] } ∧
    isValidBundle badBundle = false :=
  ⟨rfl, rfl, rfl⟩

/-- C2 amended: `run` returns exactly the capability's decoded responses, so
the ContentBundle invariants hold for the returned record exactly when the
capability's generator-call responses satisfy them — under the assumption
that every successful response on the generator calls (capability indices 0
and 2) is a valid bundle, a completed run's `initial_generation` and
`final_output` are valid bundles; the code itself enforces nothing. -/
theorem genrev_C2_amended (p : AgentPipeline) (o : Oracle) (grade : Int) (topic : String)
    (r : RunRecord)
    (h0 : ∀ req j, o 0 req = Except.ok j → isValidBundle j = true)
    (h2 : ∀ req j, o 2 req = Except.ok j → isValidBundle j = true)
    (h : (AgentPipeline.run p o grade topic).1 = Except.ok r) :
    isValidBundle r.initial_generation = true ∧ isValidBundle r.final_output = true := by
  unfold AgentPipeline.run at h
  split at h
  · exact absurd h (by simp)
  · rename_i initial t1 heq1
    simp only [GeneratorAgent.generate, GeneratorAgent.feedbackSection,
      Prod.mk.injEq] at heq1
    have hvinit := h0 _ _ heq1.1
    split at h
    · exact absurd h (by simp)
    · rename_i review t2 heq2
      split at h
      · exact absurd h (by simp)
      · rename_i statusVal heq3
        by_cases hguard : statusVal.eqStr "fail" = true
        · rw [if_pos hguard] at h
          split at h
          · exact absurd h (by simp)
          · rename_i fb heq4
            split at h
            · exact absurd h (by simp)
            · rename_i refined t3 heq5
              rcases hsec : GeneratorAgent.feedbackSection (some fb) with e2 | sec
              · simp only [GeneratorAgent.generate, hsec, Prod.mk.injEq] at heq5
                exact absurd heq5.1 (by simp)
              · simp only [GeneratorAgent.generate, hsec, Prod.mk.injEq] at heq5
                have hvref := h2 _ _ heq5.1
                simp only [Except.ok.injEq] at h
                subst h
                exact ⟨hvinit, hvref⟩
        · rw [if_neg hguard] at h
          simp only [Except.ok.injEq] at h
          subst h
          exact ⟨hvinit, hvinit⟩

/-- Witness for C2 amended at a concrete refining run with valid bundles. -/
theorem genrev_C2_amended_witness :
    (AgentPipeline.run pipe0 oracleFail 4 "Types of angles").1 = Except.ok runRecFail ∧
    (isValidBundle runRecFail.initial_generation = true ∧
     isValidBundle runRecFail.final_output = true) :=
  ⟨rfl, genrev_C2_amended pipe0 oracleFail 4 "Types of angles" runRecFail
    (fun req j hj => by injection hj with hj; rw [← hj]; rfl)
    (fun req j hj => by injection hj with hj; rw [← hj]; rfl)
    rfl⟩

/-- Counterexample for C4 as stated: when the first generation fails, `run`
raises the original exception itself; the surfaced error is not of the
`PipelineError`-wrapper form the spec describes — no such wrapper exists in
the code. -/
theorem genrev_C4_counterexample :
    (AgentPipeline.run pipe0 oracleNetFail 4 "Types of angles").1 =
        Except.error (RunError.plain (CauseError.llmError "connection error")) ∧
    RunError.isPipelineError
        (RunError.plain (CauseError.llmError "connection error")) = false :=
  ⟨rfl, rfl⟩

/-- C4 amended: whenever anything raises during `run`, the orchestrator
surfaces the original exception unchanged to its caller — never wrapped in
the spec's `PipelineError` — and the exception is one raised by a capability
call of this run or by the orchestrator's own accesses to the review value;
all-or-nothing construction holds in that a failing run returns only the
exception and no record. -/
theorem genrev_C4_amended (p : AgentPipeline) (o : Oracle) (grade : Int) (topic : String)
    (err : RunError) (h : (AgentPipeline.run p o grade topic).1 = Except.error err) :
    ∃ c, err = RunError.plain c ∧ err.isPipelineError = false ∧
      ((∃ req, o 0 req = Except.error c) ∨
       (∃ req, o 1 req = Except.error c) ∨
       (∃ req, o 2 req = Except.error c) ∨
       (∃ review, pySubscript review "status" = Except.error c) ∨
       (∃ review, pySubscript review "feedback" = Except.error c) ∨
       (∃ fb, GeneratorAgent.feedbackSection (some fb) = Except.error c)) := by
  unfold AgentPipeline.run at h
  split at h
  · rename_i e t1 heq1
    simp only [GeneratorAgent.generate, GeneratorAgent.feedbackSection,
      Prod.mk.injEq] at heq1
    simp only [Except.error.injEq] at h
    exact ⟨e, h.symm, by rw [← h]; rfl, Or.inl ⟨_, heq1.1⟩⟩
  · rename_i initial t1 heq1
    split at h
    · rename_i e t2 heq2
      simp only [ReviewerAgent.review, Prod.mk.injEq] at heq2
      simp only [Except.error.injEq] at h
      exact ⟨e, h.symm, by rw [← h]; rfl, Or.inr (Or.inl ⟨_, heq2.1⟩)⟩
    · rename_i review t2 heq2
      split at h
      · rename_i e heq3
        simp only [Except.error.injEq] at h
        exact ⟨e, h.symm, by rw [← h]; rfl,
          Or.inr (Or.inr (Or.inr (Or.inl ⟨review, heq3⟩)))⟩
      · rename_i statusVal heq3
        by_cases hguard : statusVal.eqStr "fail" = true
        · rw [if_pos hguard] at h
          split at h
          · rename_i e heq4
            simp only [Except.error.injEq] at h
            exact ⟨e, h.symm, by rw [← h]; rfl,
              Or.inr (Or.inr (Or.inr (Or.inr (Or.inl ⟨review, heq4⟩))))⟩
          · rename_i fb heq4
            split at h
            · rename_i e t3 heq5
              rcases hsec : GeneratorAgent.feedbackSection (some fb) with e2 | sec
              · simp only [GeneratorAgent.generate, hsec, Prod.mk.injEq] at heq5
                simp only [Except.error.injEq] at h
                obtain ⟨he, -⟩ := heq5
                have he2 : e2 = e := by
                  have := he
                  simp at this
                  exact this
                subst he2
                exact ⟨e2, h.symm, by rw [← h]; rfl,
                  Or.inr (Or.inr (Or.inr (Or.inr (Or.inr ⟨fb, hsec⟩))))⟩
              · simp only [GeneratorAgent.generate, hsec, Prod.mk.injEq] at heq5
                simp only [Except.error.injEq] at h
                exact ⟨e, h.symm, by rw [← h]; rfl,
                  Or.inr (Or.inr (Or.inl ⟨_, heq5.1⟩))⟩
            · exact absurd h (by simp)
        · rw [if_neg hguard] at h
          exact absurd h (by simp)

/-- Witness for C4 amended: a concrete run whose first capability call fails. -/
theorem genrev_C4_amended_witness :
    (AgentPipeline.run pipe0 oracleNetFail 4 "Types of angles").1 =
        Except.error (RunError.plain (CauseError.llmError "connection error")) ∧
    (∃ c, RunError.plain (CauseError.llmError "connection error") = RunError.plain c ∧
      (RunError.plain (CauseError.llmError "connection error")).isPipelineError = false ∧
      ((∃ req, oracleNetFail 0 req = Except.error c) ∨
       (∃ req, oracleNetFail 1 req = Except.error c) ∨
       (∃ req, oracleNetFail 2 req = Except.error c) ∨
       (∃ review, pySubscript review "status" = Except.error c) ∨
       (∃ review, pySubscript review "feedback" = Except.error c) ∨
       (∃ fb, GeneratorAgent.feedbackSection (some fb) = Except.error c))) :=
  ⟨rfl, genrev_C4_amended pipe0 oracleNetFail 4 "Types of angles"
    (RunError.plain (CauseError.llmError "connection error")) rfl⟩

/-- Counterexample for C6 as stated: the schema-validation step returns the
decoded JSON of the raw text `"\x7b\x7d"` — the empty object — unchanged and
without error, although it is a partial object that decodes to neither a
`GeneratorOutput` nor a `ReviewerOutput`; likewise it returns the
zero-question bundle, which is typed but violates the ContentBundle
invariants. No schema-validation error is raised in either case. -/
theorem genrev_C6_counterexample :
    jsonOutputParserParseResult (some (Json.obj [])) "\x7b\x7d" =
        Except.ok (Json.obj []) ∧
    decodeGeneratorOutput (Json.obj []) = none ∧
    decodeReviewerOutput (Json.obj []) = none ∧
    jsonOutputParserParseResult (some badBundle)
        "\x7b\"explanation\": \"Angles measure turns.\", \"mcqs\": []\x7d" =
      Except.ok badBundle ∧
    isValidBundle badBundle = false :=
  ⟨rfl, rfl, rfl, rfl, rfl⟩

/-- C6 amended: the parsing step checks JSON decodability only — a decodable
raw text's JSON value reaches the caller unchanged, with no field, type or
invariant validation (partial objects included), and an undecodable text
fails with an `OutputParserException` carrying the raw output rather than a
specific field; accordingly each role, on success, returns the capability's
decoded JSON exactly as produced. -/
theorem genrev_C6_amended (decoded : Option Json) (raw : String)
    (a : GeneratorAgent) (b : ReviewerAgent) (o : Oracle) (k : Nat) (grade : Int)
    (topic : String) (fb : Option Json) (content j : Json) :
    (∀ j2, decoded = some j2 → jsonOutputParserParseResult decoded raw = Except.ok j2) ∧
    (decoded = none → jsonOutputParserParseResult decoded raw =
        Except.error (CauseError.outputParserException ("Invalid json output: " ++ raw))) ∧
    ((a.generate o k grade topic fb).1 = Except.ok j →
        ∃ req, (a.generate o k grade topic fb).2 = [AgentCall.generatorCall req] ∧
          o k req = Except.ok j) ∧
    ((b.review o k grade topic content).1 = Except.ok j →
        ∃ req, (b.review o k grade topic content).2 = [AgentCall.reviewerCall req] ∧
          o k req = Except.ok j) := by
  refine ⟨?_, ?_, ?_, ?_⟩
  · intro j2 hd
    subst hd
    rfl
  · intro hd
    subst hd
    rfl
  · intro hgen
    rcases hsec : GeneratorAgent.feedbackSection fb with e | sec
    · unfold GeneratorAgent.generate at hgen
      rw [hsec] at hgen
      simp at hgen
    · unfold GeneratorAgent.generate at hgen ⊢
      rw [hsec] at hgen ⊢
      exact ⟨_, rfl, hgen⟩
  · intro hrev
    exact ⟨_, rfl, hrev⟩

/-- Witness for C6 amended: each clause applied at a concrete input. -/
theorem genrev_C6_amended_witness :
    jsonOutputParserParseResult (some goodBundle) "raw" = Except.ok goodBundle ∧
    jsonOutputParserParseResult none "not json" =
      Except.error (CauseError.outputParserException ("Invalid json output: " ++ "not json")) ∧
    (∃ req, (pipe0.generator.generate oraclePass 0 4 "Types of angles" none).2 =
        [AgentCall.generatorCall req] ∧ oraclePass 0 req = Except.ok goodBundle) ∧
    (∃ req, (pipe0.reviewer.review oraclePass 1 4 "Types of angles" goodBundle).2 =
        [AgentCall.reviewerCall req] ∧ oraclePass 1 req = Except.ok passReview) :=
  ⟨(genrev_C6_amended (some goodBundle) "raw" pipe0.generator pipe0.reviewer oraclePass 0
      4 "Types of angles" none goodBundle goodBundle).1 goodBundle rfl,
   (genrev_C6_amended none "not json" pipe0.generator pipe0.reviewer oraclePass 0
      4 "Types of angles" none goodBundle goodBundle).2.1 rfl,
   (genrev_C6_amended (some goodBundle) "raw" pipe0.generator pipe0.reviewer oraclePass 0
      4 "Types of angles" none goodBundle goodBundle).2.2.1 rfl,
   (genrev_C6_amended (some goodBundle) "raw" pipe0.generator pipe0.reviewer oraclePass 1
      4 "Types of angles" none goodBundle passReview).2.2.2 rfl⟩
